import Mathlib

/-!
Verification of the go-chat-api authentication handlers.

Bytes are modelled as `List Nat` (each entry one byte).  The cryptographic
pipeline (`saltyPassword` = PBKDF2-HMAC-SHA256, 10000 iterations, 512-byte key,
as in `auth_handlers.go`) is translated from the Go sources of
`golang.org/x/crypto/pbkdf2`, `crypto/hmac`, `crypto/sha256` and
`crypto/subtle`, with 32-bit words represented as `Nat` reduced mod 2^32.
-/

/-- Reduce a natural number to a 32-bit word. -/
def w32 (n : Nat) : Nat := n % 4294967296

/-- 32-bit rotate right, as used by the SHA-256 sigma functions. -/
def rotr32 (x n : Nat) : Nat := w32 ((x >>> n) ||| (x <<< (32 - n)))

def smallSigma0 (x : Nat) : Nat := (rotr32 x 7) ^^^ (rotr32 x 18) ^^^ (x >>> 3)

def smallSigma1 (x : Nat) : Nat := (rotr32 x 17) ^^^ (rotr32 x 19) ^^^ (x >>> 10)

def bigSigma0 (x : Nat) : Nat := (rotr32 x 2) ^^^ (rotr32 x 13) ^^^ (rotr32 x 22)

def bigSigma1 (x : Nat) : Nat := (rotr32 x 6) ^^^ (rotr32 x 11) ^^^ (rotr32 x 25)

/-- SHA-256 choice function (bitwise not is xor with the all-ones word). -/
def chB (x y z : Nat) : Nat := (x &&& y) ^^^ ((4294967295 ^^^ x) &&& z)

/-- SHA-256 majority function. -/
def majB (x y z : Nat) : Nat := (x &&& y) ^^^ (x &&& z) ^^^ (y &&& z)

/-- The 64 SHA-256 round constants (the fractional parts of the cube roots of
the first 64 primes, as 32-bit words, written in decimal). -/
def sha256K : List Nat :=
  [1116352408, 1899447441, 3049323471, 3921009573,
   961987163, 1508970993, 2453635748, 2870763221,
   3624381080, 310598401, 607225278, 1426881987,
   1925078388, 2162078206, 2614888103, 3248222580,
   3835390401, 4022224774, 264347078, 604807628,
   770255983, 1249150122, 1555081692, 1996064986,
   2554220882, 2821834349, 2952996808, 3210313671,
   3336571891, 3584528711, 113926993, 338241895,
   666307205, 773529912, 1294757372, 1396182291,
   1695183700, 1986661051, 2177026350, 2456956037,
   2730485921, 2820302411, 3259730800, 3345764771,
   3516065817, 3600352804, 4094571909, 275423344,
   430227734, 506948616, 659060556, 883997877,
   958139571, 1322822218, 1537002063, 1747873779,
   1955562222, 2024104815, 2227730452, 2361852424,
   2428436474, 2756734187, 3204031479, 3329325298]

/-- The eight 32-bit working registers of SHA-256. -/
structure Sha256State where
  a : Nat
  b : Nat
  c : Nat
  d : Nat
  e : Nat
  f : Nat
  g : Nat
  h : Nat

def sha256InitState : Sha256State :=
  ⟨1779033703, 3144134277, 1013904242, 2773480762,
   1359893119, 2600822924, 528734635, 1541459225⟩

/-- Extend the 16-word message block by one scheduled word per step. -/
def scheduleExtend (acc : List Nat) : Nat → List Nat
  | 0 => acc
  | n + 1 =>
    let len := acc.length
    let wt := w32 (smallSigma1 (acc.getD (len - 2) 0) + acc.getD (len - 7) 0
      + smallSigma0 (acc.getD (len - 15) 0) + acc.getD (len - 16) 0)
    scheduleExtend (acc ++ [wt]) n

/-- The 64-word message schedule of a block. -/
def scheduleWords (block : List Nat) : List Nat := scheduleExtend block 48

/-- One SHA-256 compression round for round constant `k` and schedule word `w`. -/
def sha256Round (st : Sha256State) (k w : Nat) : Sha256State :=
  let t1 := w32 (st.h + bigSigma1 st.e + chB st.e st.f st.g + k + w)
  let t2 := w32 (bigSigma0 st.a + majB st.a st.b st.c)
  ⟨w32 (t1 + t2), st.a, st.b, st.c, w32 (st.d + t1), st.e, st.f, st.g⟩

/-- Compress one 16-word block into the running hash state. -/
def compressBlock (st : Sha256State) (block : List Nat) : Sha256State :=
  let ws := scheduleWords block
  let fin := (List.zip sha256K ws).foldl (fun s kw => sha256Round s kw.1 kw.2) st
  ⟨w32 (st.a + fin.a), w32 (st.b + fin.b), w32 (st.c + fin.c), w32 (st.d + fin.d),
   w32 (st.e + fin.e), w32 (st.f + fin.f), w32 (st.g + fin.g), w32 (st.h + fin.h)⟩

/-- Big-endian byte rendering of `v` on `n` bytes. -/
def beBytes (n v : Nat) : List Nat :=
  (List.range n).map (fun i => (v >>> (8 * (n - 1 - i))) % 256)

/-- SHA-256 padding: append 0x80, zero bytes, and the 64-bit message bit length. -/
def padMessage (msg : List Nat) : List Nat :=
  let L := msg.length
  let zeros := (64 - ((L + 9) % 64)) % 64
  msg ++ [128] ++ List.replicate zeros 0 ++ beBytes 8 (8 * L)

/-- Group bytes into big-endian 32-bit words. -/
def bytesToWords : List Nat → List Nat
  | a :: b :: c :: d :: rest =>
    (a * 16777216 + b * 65536 + c * 256 + d) :: bytesToWords rest
  | _ => []

/-- Split a word list into 16-word blocks (`fuel` bounds the recursion). -/
def chunkWords : Nat → List Nat → List (List Nat)
  | 0, _ => []
  | _, [] => []
  | fuel + 1, ws => ws.take 16 :: chunkWords fuel (ws.drop 16)

/-- The four big-endian bytes of a 32-bit word. -/
def wordBytes (x : Nat) : List Nat :=
  [(x >>> 24) % 256, (x >>> 16) % 256, (x >>> 8) % 256, x % 256]

/-- The 32-byte digest rendered from the final state. -/
def digestBytes (st : Sha256State) : List Nat :=
  wordBytes st.a ++ wordBytes st.b ++ wordBytes st.c ++ wordBytes st.d ++
  wordBytes st.e ++ wordBytes st.f ++ wordBytes st.g ++ wordBytes st.h

/-- SHA-256 of a byte sequence, translated from crypto/sha256. -/
def sha256 (msg : List Nat) : List Nat :=
  let ws := bytesToWords (padMessage msg)
  digestBytes ((chunkWords ws.length ws).foldl compressBlock sha256InitState)

/-- HMAC key preprocessing: hash long keys, then right-pad with zeros to 64 bytes. -/
def hmacKey (key : List Nat) : List Nat :=
  let k := if key.length > 64 then sha256 key else key
  k ++ List.replicate (64 - k.length) 0

/-- HMAC-SHA256, translated from crypto/hmac. -/
def hmac (key msg : List Nat) : List Nat :=
  let k := hmacKey key
  let ipad := k.map (fun b => b ^^^ 54)
  let opad := k.map (fun b => b ^^^ 92)
  sha256 (opad ++ sha256 (ipad ++ msg))

/-- Pointwise xor of two byte sequences (truncating to the shorter). -/
def xorBytes (x y : List Nat) : List Nat := List.zipWith (fun a b => a ^^^ b) x y

/-- The inner PBKDF2 loop: `n` remaining iterations, current `u`, accumulator `t`. -/
def pbkdf2Iter (password : List Nat) : Nat → List Nat → List Nat → List Nat
  | 0, _, t => t
  | n + 1, u, t => pbkdf2Iter password n (hmac password u) (xorBytes t (hmac password u))

/-- One PBKDF2 output block `T_i` for block index `i` (1-based). -/
def pbkdf2Block (password salt : List Nat) (iter i : Nat) : List Nat :=
  let u1 := hmac password (salt ++ beBytes 4 i)
  pbkdf2Iter password (iter - 1) u1 u1

/-- PBKDF2, translated from golang.org/x/crypto/pbkdf2 with HMAC-SHA256 as PRF. -/
def pbkdf2 (password salt : List Nat) (iter keyLen hLen : Nat) : List Nat :=
  let numBlocks := (keyLen + hLen - 1) / hLen
  (((List.range numBlocks).map (fun i => pbkdf2Block password salt iter (i + 1))).flatten).take keyLen

/-- `saltyPassword` from auth_handlers.go: PBKDF2 with 10000 iterations, a
512-byte derived key, and SHA-256 as the digest. -/
def saltyPassword (password salt : List Nat) : List Nat :=
  pbkdf2 password salt 10000 512 32

/-- Modelled from the spec: `auth.SaltyPassword`, the Salted Hasher of section 4.1
exported by the internal auth package (whose source is not under src/); section 2
describes a single Salted Hasher, so it is the same PBKDF2 derivation that
`saltyPassword` performs. -/
def SaltyPassword (password salt : List Nat) : List Nat := saltyPassword password salt

/-- The accumulated or of the pointwise xor, as in subtle.ConstantTimeCompare. -/
def xorFold (x y : List Nat) : Nat :=
  (List.zipWith (fun a b => a ^^^ b) x y).foldl (fun acc b => acc ||| b) 0

/-- subtle.ConstantTimeCompare: 0 on length mismatch, otherwise 1 exactly when
all bytes agree (the or-accumulated xor is 0). -/
def constantTimeCompare (x y : List Nat) : Nat :=
  if x.length ≠ y.length then 0
  else if xorFold x y = 0 then 1 else 0

/-- UTF-8 bytes of a string, the Go conversion from string to a byte slice. -/
def strBytes (s : String) : List Nat := s.toUTF8.toList.map UInt8.toNat

/-!
Data model.  The store row type `database.User` and the rendering layer are
repository code that is not under src/; they are modelled from the spec
(sections 3 and 6) and from how the handlers under src/ read and write their
fields.
-/

/-- pgtype.Timestamp: an instant plus a validity flag. -/
structure PgTimestamp where
  time : Nat
  valid : Bool
deriving DecidableEq, Repr

/-- Modelled from the spec: the stored account row (`database.User`, generated
store code not under src/).  Section 3: a public identifier, a private storage
identifier, username, display name, password hash, password salt, and the
created / updated / last-authenticated timestamps.  The handlers under src/
read and write exactly these fields. -/
structure User where
  pvtID : Nat
  userID : String
  username : String
  displayName : String
  password : List Nat
  passwordSalt : List Nat
  createdAt : Nat
  updatedAt : Nat
  lastLoggedIn : PgTimestamp
deriving DecidableEq, Repr

/-- PublicUserDetails from the user handlers file. -/
structure PublicUserDetails where
  userID : String
  username : String
  displayName : String
  createdAt : Nat
  updatedAt : Nat
  lastLoggedIn : PgTimestamp
deriving DecidableEq, Repr

/-- convertToPublicUser: project the stored row onto the public shape. -/
def convertToPublicUser (u : User) : PublicUserDetails :=
  ⟨u.userID, u.username, u.displayName, u.createdAt, u.updatedAt, u.lastLoggedIn⟩

/-- A rendered JSON value (only the shapes the handlers emit). -/
inductive JValue where
  | s (v : String)
  | n (v : Nat)
  | b (v : List Nat)
  | t (v : Nat)
  | ts (v : PgTimestamp)
deriving DecidableEq, Repr

/-- Body of a failure response: a plain message or a field map. -/
inductive FailureBody where
  | msg (s : String)
  | fields (kvs : List (String × String))
deriving DecidableEq, Repr

/-- A response written to the ResponseWriter.  Modelled from the spec
(section 6): the render collaborator encodes a success or failure payload;
validation failures carry the violation set. -/
inductive Resp where
  | success (status : Nat) (body : List (String × JValue))
  | failure (status : Nat) (body : FailureBody)
  | validationFailure (errs : List (String × String))
deriving DecidableEq, Repr

/-- database.CreateUserParams as populated by the two creation handlers. -/
structure CreateUserParams where
  username : String
  displayName : String
  password : List Nat
  passwordSalt : List Nat
  createdAt : Nat
  updatedAt : Nat
deriving DecidableEq, Repr

/-- database.UpdateUserDetailsParams as populated by handleUpdateUser. -/
structure UpdateUserDetailsParams where
  username : String
  displayName : String
  password : List Nat
  updatedAt : Nat
  pvtID : Nat
deriving DecidableEq, Repr

/-- Everything externally observable about one handler run: the responses
written in order, the slog records, and the create / update store calls the
handler issued. -/
structure HandlerOut where
  responses : List Resp
  logs : List (String × String)
  creates : List CreateUserParams
  updates : List UpdateUserDetailsParams
deriving DecidableEq, Repr

/-- Store and library failure shapes seen by the handlers. -/
inductive DBErr where
  | notFound
  | pgError (code : String) (message : String) (constraintName : String)
  | otherErr
deriving DecidableEq, Repr

/-- Token issuance failure (auth.UserToToken error). -/
inductive TokenErr where
  | signingFailure
deriving DecidableEq, Repr

/-!
Input shapes and validation.  The go-playground validator evaluates the tags
of each struct field in order and reports the first failing tag per field.
With the fixed, well-formed tag sets of this repository the defensive branch
for a malformed validator definition is unreachable, so validation is a pure
function from the input struct to the violation list.
-/

/-- printascii: every character is in the ASCII range 32..126. -/
def printAscii (s : String) : Bool :=
  s.toList.all (fun c => decide (32 ≤ c.toNat) && decide (c.toNat ≤ 126))

/-- First failing tag of one field, as (field, tag) violations. -/
def fieldViolation (field : String) (checks : List (String × Bool)) : List (String × String) :=
  match checks.find? (fun c => !c.2) with
  | some c => [(field, c.1)]
  | none => []

/-- Tags `required,min=5,max=50` on a username field. -/
def usernameChecks (u : String) : List (String × Bool) :=
  [("required", u != ""), ("min", decide (5 ≤ u.length)), ("max", decide (u.length ≤ 50))]

/-- Tags `required,min=5,max=150` on a display-name field. -/
def displayNameChecks (d : String) : List (String × Bool) :=
  [("required", d != ""), ("min", decide (5 ≤ d.length)), ("max", decide (d.length ≤ 150))]

/-- Tags `required,printascii,min=8` on a password field. -/
def passwordChecks (p : String) : List (String × Bool) :=
  [("required", p != ""), ("printascii", printAscii p), ("min", decide (8 ≤ p.length))]

/-- loginUserData. -/
structure LoginUserData where
  username : String
  password : String
deriving DecidableEq, Repr

def zeroLoginUserData : LoginUserData := ⟨"", ""⟩

def validateLoginUserData (lu : LoginUserData) : List (String × String) :=
  fieldViolation "Username" (usernameChecks lu.username)
  ++ fieldViolation "Password" (passwordChecks lu.password)

/-- registerUserData. -/
structure RegisterUserData where
  username : String
  displayName : String
  password : String
  confirmPassword : String
deriving DecidableEq, Repr

def zeroRegisterUserData : RegisterUserData := ⟨"", "", "", ""⟩

def validateRegisterUserData (ru : RegisterUserData) : List (String × String) :=
  fieldViolation "Username" (usernameChecks ru.username)
  ++ fieldViolation "DisplayName" (displayNameChecks ru.displayName)
  ++ fieldViolation "Password"
      (passwordChecks ru.password ++ [("eqfield", ru.password == ru.confirmPassword)])
  ++ fieldViolation "ConfirmPassword" [("required", ru.confirmPassword != "")]

/-- createUserData. -/
structure CreateUserData where
  username : String
  displayName : String
  password : String
deriving DecidableEq, Repr

def zeroCreateUserData : CreateUserData := ⟨"", "", ""⟩

def validateCreateUserData (cu : CreateUserData) : List (String × String) :=
  fieldViolation "Username" (usernameChecks cu.username)
  ++ fieldViolation "DisplayName" (displayNameChecks cu.displayName)
  ++ fieldViolation "Password" (passwordChecks cu.password)

/-- updateUserData (all fields optional, tags guarded by omitnil). -/
structure UpdateUserData where
  username : Option String
  displayName : Option String
  password : Option String
deriving DecidableEq, Repr

def zeroUpdateUserData : UpdateUserData := ⟨none, none, none⟩

def validateUpdateUserData (ud : UpdateUserData) : List (String × String) :=
  (match ud.username with
   | none => []
   | some u => fieldViolation "Username"
       [("min", decide (5 ≤ u.length)), ("max", decide (u.length ≤ 50))])
  ++ (match ud.displayName with
      | none => []
      | some d => fieldViolation "DisplayName"
          [("min", decide (5 ≤ d.length)), ("max", decide (d.length ≤ 150))])
  ++ (match ud.password with
      | none => []
      | some p => fieldViolation "Password"
          [("printascii", printAscii p), ("min", decide (8 ≤ p.length))])

/-!
Handlers.  Each handler is a function of the decoded request body (`none`
when json.Decoder.Decode failed, in which case the Go code keeps the
zero-valued struct because the decode error is discarded) and of the results
of its store / library calls, returning everything it emits.
-/

def internalServerErrorMssg : String := "could not process request at this time"

def insufficientStorageErrorMssg : String := "could not create user at this moment"

def tokenGenerationErrorMssg : String := "could not login user at this time"

/-- Modelled from the spec: auth.TokenPrefix, the token type label issued with
a login response (the auth package is not under src/; the label value is an
opaque constant, irrelevant to every claim). -/
def tokenTypeLabel : String := "Bearer"

/-- Body of the login success response. -/
def loginResponseBody (token : String) (user : User) : List (String × JValue) :=
  [("token", JValue.s token), ("token_type", JValue.s tokenTypeLabel),
   ("username", JValue.s user.username), ("display_name", JValue.s user.displayName),
   ("last_logged_in", JValue.ts user.lastLoggedIn)]

/-- Body of the register success response (four fields only). -/
def registerResponseBody (user : User) : List (String × JValue) :=
  [("user_id", JValue.s user.userID), ("username", JValue.s user.username),
   ("display_name", JValue.s user.displayName), ("created_at", JValue.t user.createdAt)]

/-- JSON body of PublicUserDetails.  The omitempty options on updated_at and
last_logged_in have no effect in Go for struct-typed fields (time.Time and
pgtype.Timestamp are structs, never "empty"), so all six keys are always
emitted. -/
def publicUserBody (p : PublicUserDetails) : List (String × JValue) :=
  [("user_id", JValue.s p.userID), ("username", JValue.s p.username),
   ("display_name", JValue.s p.displayName), ("created_at", JValue.t p.createdAt),
   ("updated_at", JValue.t p.updatedAt), ("last_logged_in", JValue.ts p.lastLoggedIn)]

/-- Modelled from the spec: the serialized `database.User` row as
handleDeleteUser returns it.  The generated store struct exports every column
of section 3, so the rendered body carries them all, including the password
hash, the salt, and the private storage identifier. -/
def fullUserBody (u : User) : List (String × JValue) :=
  [("pvt_id", JValue.n u.pvtID), ("user_id", JValue.s u.userID),
   ("username", JValue.s u.username), ("display_name", JValue.s u.displayName),
   ("password", JValue.b u.password), ("password_salt", JValue.b u.passwordSalt),
   ("created_at", JValue.t u.createdAt), ("updated_at", JValue.t u.updatedAt),
   ("last_logged_in", JValue.ts u.lastLoggedIn)]

/-- The slog.Error record written when CreateUser fails with a pgconn.PgError
(errors.As succeeds); other error values produce no record. -/
def pgErrorLog : DBErr → List (String × String)
  | DBErr.pgError _ _ _ => [("ERROR", "could not create user")]
  | _ => []

/-- The 406 response of the uniqueness pre-check. -/
def usernameTakenResp : Resp :=
  Resp.failure 406 (FailureBody.fields [("username", "already exists")])

/-- handleLogin from auth_handlers.go.  `decoded` is the decode result,
`lookup` the GetUserByName result, `updErr` the UpdateLoggedInTime error if
any, `tokenRes` the auth.UserToToken result.  Note the UpdateLoggedInTime
failure branch has no return in the source: it writes a 507 failure and then
falls through to the token flow, so two responses are written. -/
def handleLogin (decoded : Option LoginUserData) (lookup : Except DBErr User)
    (updErr : Option DBErr) (tokenRes : Except TokenErr String) : HandlerOut :=
  let lu := decoded.getD zeroLoginUserData
  if validateLoginUserData lu ≠ [] then
    ⟨[Resp.validationFailure (validateLoginUserData lu)], [], [], []⟩
  else
    match lookup with
    | Except.error _ =>
      ⟨[Resp.failure 400 (FailureBody.msg "username or password is invalid")], [], [], []⟩
    | Except.ok user =>
      if constantTimeCompare (saltyPassword (strBytes lu.password) user.passwordSalt)
          user.password ≠ 1 then
        ⟨[Resp.failure 400 (FailureBody.msg "username or password is invalid")], [], [], []⟩
      else
        match updErr, tokenRes with
        | some _, Except.error _ =>
          ⟨[Resp.failure 507 (FailureBody.msg tokenGenerationErrorMssg),
            Resp.failure 500 (FailureBody.msg tokenGenerationErrorMssg)], [], [], []⟩
        | some _, Except.ok token =>
          ⟨[Resp.failure 507 (FailureBody.msg tokenGenerationErrorMssg),
            Resp.success 200 (loginResponseBody token user)], [], [], []⟩
        | none, Except.error _ =>
          ⟨[Resp.failure 500 (FailureBody.msg tokenGenerationErrorMssg)], [], [], []⟩
        | none, Except.ok token =>
          ⟨[Resp.success 200 (loginResponseBody token user)], [], [], []⟩

/-- handleRegister from auth_handlers.go.  `randRes` is the crypto/rand byte
stream when rand.Read succeeds; the salt is its first 128 bytes.  Any
GetUserByName error (not only not-found) lets the pre-check pass; a nil error
means the username exists. -/
def handleRegister (decoded : Option RegisterUserData) (lookup : Except DBErr User)
    (randRes : Except Unit (Nat → Nat)) (createRes : Except DBErr User)
    (now : Nat) : HandlerOut :=
  let ru := decoded.getD zeroRegisterUserData
  if validateRegisterUserData ru ≠ [] then
    ⟨[Resp.validationFailure (validateRegisterUserData ru)], [], [], []⟩
  else
    match lookup with
    | Except.ok _ => ⟨[usernameTakenResp], [], [], []⟩
    | Except.error _ =>
      match randRes with
      | Except.error _ =>
        ⟨[Resp.failure 507 (FailureBody.msg insufficientStorageErrorMssg)], [], [], []⟩
      | Except.ok gen =>
        let passwordSalt := (List.range 128).map gen
        let params : CreateUserParams :=
          ⟨ru.username, ru.displayName, saltyPassword (strBytes ru.password) passwordSalt,
           passwordSalt, now, now⟩
        match createRes with
        | Except.error e =>
          ⟨[Resp.failure 507 (FailureBody.msg insufficientStorageErrorMssg)],
           pgErrorLog e, [params], []⟩
        | Except.ok user =>
          ⟨[Resp.success 201 (registerResponseBody user)], [], [params], []⟩

/-- The PublicUserDetails literal handleCreateUser builds on success: only
four fields are set, UpdatedAt and LastLoggedIn stay at their Go zero values. -/
def createUserSuccessDetails (u : User) : PublicUserDetails :=
  ⟨u.userID, u.username, u.displayName, u.createdAt, 0, ⟨0, false⟩⟩

/-- handleCreateUser from the user handlers file: same pipeline as
handleRegister, with createUserData input, auth.SaltyPassword for hashing,
and a PublicUserDetails success body. -/
def handleCreateUser (decoded : Option CreateUserData) (lookup : Except DBErr User)
    (randRes : Except Unit (Nat → Nat)) (createRes : Except DBErr User)
    (now : Nat) : HandlerOut :=
  let cu := decoded.getD zeroCreateUserData
  if validateCreateUserData cu ≠ [] then
    ⟨[Resp.validationFailure (validateCreateUserData cu)], [], [], []⟩
  else
    match lookup with
    | Except.ok _ => ⟨[usernameTakenResp], [], [], []⟩
    | Except.error _ =>
      match randRes with
      | Except.error _ =>
        ⟨[Resp.failure 507 (FailureBody.msg insufficientStorageErrorMssg)], [], [], []⟩
      | Except.ok gen =>
        let passwordSalt := (List.range 128).map gen
        let params : CreateUserParams :=
          ⟨cu.username, cu.displayName, SaltyPassword (strBytes cu.password) passwordSalt,
           passwordSalt, now, now⟩
        match createRes with
        | Except.error e =>
          ⟨[Resp.failure 507 (FailureBody.msg insufficientStorageErrorMssg)],
           pgErrorLog e, [params], []⟩
        | Except.ok user =>
          ⟨[Resp.success 201 (publicUserBody (createUserSuccessDetails user))],
           [], [params], []⟩

/-- handleGetUserDetail: the authenticated account through convertToPublicUser. -/
def handleGetUserDetail (user : User) : HandlerOut :=
  ⟨[Resp.success 200 (publicUserBody (convertToPublicUser user))], [], [], []⟩

/-- The in-memory field rewrites of handleUpdateUser.  The source assigns the
three fields of the row value in sequence (password first, rehashed with the
existing stored salt, then username, then display name); each field is
written at most once and no assignment reads a field another one writes, so
the net effect is this record. -/
def applyUpdate (ud : UpdateUserData) (user : User) : User :=
  { pvtID := user.pvtID
    userID := user.userID
    username := ud.username.getD user.username
    displayName := ud.displayName.getD user.displayName
    password :=
      match ud.password with
      | some p => SaltyPassword (strBytes p) user.passwordSalt
      | none => user.password
    passwordSalt := user.passwordSalt
    createdAt := user.createdAt
    updatedAt := user.updatedAt
    lastLoggedIn := user.lastLoggedIn }

/-- The single UpdateUserDetails store call handleUpdateUser issues. -/
def updateParams (u : User) (now : Nat) : UpdateUserDetailsParams :=
  ⟨u.username, u.displayName, u.password, now, u.pvtID⟩

/-- handleUpdateUser from the user handlers file.  A zero-valued input (also
the result of a discarded decode error) short-circuits to a success response
with the current profile, before validation. -/
def handleUpdateUser (decoded : Option UpdateUserData) (user : User)
    (updRes : Except DBErr User) (now : Nat) : HandlerOut :=
  let ud := decoded.getD zeroUpdateUserData
  if ud = zeroUpdateUserData then
    ⟨[Resp.success 200 (publicUserBody (convertToPublicUser user))], [], [], []⟩
  else if validateUpdateUserData ud ≠ [] then
    ⟨[Resp.validationFailure (validateUpdateUserData ud)], [], [], []⟩
  else
    match updRes with
    | Except.error _ =>
      ⟨[Resp.failure 507 (FailureBody.msg "could not update at this time")], [], [],
       [updateParams (applyUpdate ud user) now]⟩
    | Except.ok updUser =>
      ⟨[Resp.success 200 (publicUserBody (convertToPublicUser updUser))], [], [],
       [updateParams (applyUpdate ud user) now]⟩

/-- handleDeleteUser from the user handlers file.  On success the handler
renders `delUser` itself, the raw store row, not convertToPublicUser of it. -/
def handleDeleteUser (user : User) (delRes : Except DBErr User) : HandlerOut :=
  match delRes with
  | Except.error _ =>
    ⟨[Resp.failure 500 (FailureBody.msg "could not delete at this time")], [], [], []⟩
  | Except.ok delUser =>
    ⟨[Resp.success 200 (fullUserBody delUser)], [], [], []⟩

/-!
Helper lemmas.
-/

lemma xorFold_self (x : List Nat) : xorFold x x = 0 := by
  suffices h : ∀ acc, (List.zipWith (fun a b => a ^^^ b) x x).foldl
      (fun acc b => acc ||| b) acc = acc by
    simpa [xorFold] using h 0
  induction x with
  | nil => intro acc; rfl
  | cons a x ih =>
    intro acc
    simpa [Nat.xor_self] using ih acc

lemma constantTimeCompare_self_eq_one (x : List Nat) : constantTimeCompare x x = 1 := by
  simp [constantTimeCompare, xorFold_self]

lemma constantTimeCompare_len_ne {x y : List Nat} (h : x.length ≠ y.length) :
    constantTimeCompare x y = 0 := by
  simp [constantTimeCompare, h]

lemma wordBytes_length (x : Nat) : (wordBytes x).length = 4 := rfl

lemma digestBytes_length (st : Sha256State) : (digestBytes st).length = 32 := by
  simp [digestBytes, wordBytes]

lemma sha256_length (msg : List Nat) : (sha256 msg).length = 32 := by
  simp [sha256, digestBytes_length]

lemma hmac_length (key msg : List Nat) : (hmac key msg).length = 32 := by
  simp [hmac, sha256_length]

lemma xorBytes_length (x y : List Nat) :
    (xorBytes x y).length = min x.length y.length := by
  simp [xorBytes]

lemma pbkdf2Iter_length (p : List Nat) :
    ∀ (n : Nat) (u t : List Nat), t.length = 32 → (pbkdf2Iter p n u t).length = 32 := by
  intro n
  induction n with
  | zero => intro u t ht; simpa [pbkdf2Iter] using ht
  | succ n ih =>
    intro u t ht
    simp only [pbkdf2Iter]
    exact ih _ _ (by simp [xorBytes_length, ht, hmac_length])

lemma pbkdf2Block_length (p s : List Nat) (iter i : Nat) :
    (pbkdf2Block p s iter i).length = 32 :=
  pbkdf2Iter_length p (iter - 1) _ _ (hmac_length _ _)

lemma flatten_length_const {α : Type} (f : Nat → List α) (k : Nat)
    (hf : ∀ i, (f i).length = k) :
    ∀ n, ((List.range n).map f).flatten.length = n * k := by
  intro n
  induction n with
  | zero => simp
  | succ n ih =>
    rw [List.range_succ, List.map_append, List.flatten_append]
    simp [ih, hf, Nat.succ_mul]

lemma saltyPassword_length (p s : List Nat) : (saltyPassword p s).length = 512 := by
  have h := flatten_length_const (fun i => pbkdf2Block p s 10000 (i + 1)) 32
    (fun i => pbkdf2Block_length p s 10000 (i + 1)) 16
  simp only [saltyPassword, pbkdf2]
  rw [List.length_take, h]
  decide

lemma fieldViolation_nil_iff (f : String) (cs : List (String × Bool)) :
    fieldViolation f cs = [] ↔ ∀ c ∈ cs, c.2 = true := by
  unfold fieldViolation
  cases hfind : cs.find? (fun c => !c.2) with
  | none =>
    rw [List.find?_eq_none] at hfind
    constructor
    · intro _ c hcmem
      have := hfind c hcmem
      simpa using this
    · intro _
      rfl
  | some c =>
    constructor
    · intro h
      simp at h
    · intro hall
      have hmem := List.mem_of_find?_eq_some hfind
      have hp := List.find?_some hfind
      have hct := hall c hmem
      simp [hct] at hp

lemma validateCreate_eq (u d p : String) :
    validateCreateUserData ⟨u, d, p⟩ =
      fieldViolation "Username" (usernameChecks u)
      ++ fieldViolation "DisplayName" (displayNameChecks d)
      ++ fieldViolation "Password" (passwordChecks p) := rfl

lemma validateRegister_nil_of (u d p cp : String) (hc : cp = p)
    (hv : validateCreateUserData ⟨u, d, p⟩ = []) :
    validateRegisterUserData ⟨u, d, p, cp⟩ = [] := by
  subst hc
  rw [validateCreate_eq] at hv
  rcases List.append_eq_nil.mp hv with ⟨h12, h3⟩
  rcases List.append_eq_nil.mp h12 with ⟨h1, h2⟩
  have hall := (fieldViolation_nil_iff "Password" (passwordChecks cp)).mp h3
  have hreq : (cp != "") = true := by
    have := hall ("required", cp != "") (by simp [passwordChecks])
    simpa using this
  have h4 : fieldViolation "Password" (passwordChecks cp ++ [("eqfield", cp == cp)]) = [] := by
    apply (fieldViolation_nil_iff _ _).mpr
    intro c hcmem
    rcases List.mem_append.mp hcmem with hm | hm
    · exact hall c hm
    · simp only [List.mem_singleton] at hm
      subst hm
      simp
  have h5 : fieldViolation "ConfirmPassword" [("required", cp != "")] = [] := by
    apply (fieldViolation_nil_iff _ _).mpr
    intro c hcmem
    simp only [List.mem_singleton] at hcmem
    subst hcmem
    simpa using hreq
  show ((fieldViolation "Username" (usernameChecks u)
      ++ fieldViolation "DisplayName" (displayNameChecks d))
      ++ fieldViolation "Password" (passwordChecks cp ++ [("eqfield", cp == cp)]))
      ++ fieldViolation "ConfirmPassword" [("required", cp != "")] = []
  rw [h1, h2, h4, h5]
  rfl

/-!
Concrete sample data used by counterexamples and witnesses.
-/

def sampleUser : User :=
  ⟨7, "11111111-2222-3333-4444-555555555555", "alice123", "Alice A.",
   [1, 2, 3], [4, 5, 6], 100, 200, ⟨300, true⟩⟩

def sampleUserNoHash : User :=
  ⟨7, "11111111-2222-3333-4444-555555555555", "alice123", "Alice A.",
   [], [4, 5, 6], 100, 200, ⟨300, true⟩⟩

def loginInput : LoginUserData := ⟨"alice123", "Secret123!"⟩

def sampleRegister : RegisterUserData := ⟨"alice123", "Alice A.", "Secret123!", "Secret123!"⟩

def sampleCreate : CreateUserData := ⟨"alice123", "Alice A.", "Secret123!"⟩

def createdUser : User :=
  ⟨9, "99999999-8888-7777-6666-555555555555", "alice123", "Alice A.",
   [], [], 777, 777, ⟨0, false⟩⟩

def uniqueViolation : DBErr :=
  DBErr.pgError "23505" "duplicate key value violates unique constraint" "users_username_key"

def usernameOnlyUpdate : UpdateUserData := ⟨some "newname99", none, none⟩

/-- An account whose stored hash is exactly the hash of "Secret123!" under its
salt, so that login password verification succeeds definitionally. -/
def verifiedUser (salt : List Nat) : User :=
  { sampleUser with
    passwordSalt := salt
    password := saltyPassword (strBytes "Secret123!") salt }

def displayOnlyUpdate : UpdateUserData := ⟨none, some "Alice Bee", none⟩

def passwordUpdate : UpdateUserData := ⟨none, some "Alice Bee", some "NewSecret1!"⟩

/-- The create handler projection of a register input (drop confirm_password). -/
def dropConfirm (ru : RegisterUserData) : CreateUserData :=
  ⟨ru.username, ru.displayName, ru.password⟩

/-- The two zero-valued keys the create success body carries beyond the
register success body. -/
def zeroTimestampFields : List (String × JValue) :=
  [("updated_at", JValue.t 0), ("last_logged_in", JValue.ts ⟨0, false⟩)]

lemma createSuccessBody_eq (u : User) :
    publicUserBody (createUserSuccessDetails u)
      = registerResponseBody u ++ zeroTimestampFields := rfl

lemma applyUpdate_username (ud : UpdateUserData) (user : User) :
    (applyUpdate ud user).username = ud.username.getD user.username := rfl

lemma updateParams_username (u : User) (now : Nat) :
    (updateParams u now).username = u.username := rfl

lemma applyUpdate_username_none (ud : UpdateUserData) (user : User)
    (h : ud.username = none) : (applyUpdate ud user).username = user.username := by
  rw [applyUpdate_username, h]
  rfl

/-- A login whose password verifies but whose last-login update fails writes
the 507 failure response and then the 200 success response, with no log. -/
lemma handleLogin_updErr_some (lu : LoginUserData) (u : User) (e : DBErr) (tok : String)
    (hv : validateLoginUserData lu = [])
    (hok : constantTimeCompare (saltyPassword (strBytes lu.password) u.passwordSalt)
        u.password = 1) :
    handleLogin (some lu) (Except.ok u) (some e) (Except.ok tok)
      = ⟨[Resp.failure 507 (FailureBody.msg tokenGenerationErrorMssg),
          Resp.success 200 (loginResponseBody tok u)], [], [], []⟩ := by
  unfold handleLogin
  simp [hv, hok]

/-!
Claims.
-/

/-- C1: the claim says every success response excludes the password hash, the
salt, and the private storage identifier.  The delete handler violates it: it
renders the raw store row returned by DeleteUserDetails instead of passing it
through convertToPublicUser, so its success body carries all three fields.
This theorem evaluates the handler at a concrete account. -/
theorem deleteUser_response_contains_credentials :
    (handleDeleteUser sampleUser (Except.ok sampleUser)).responses
        = [Resp.success 200 (fullUserBody sampleUser)]
    ∧ ("password", JValue.b [1, 2, 3]) ∈ fullUserBody sampleUser
    ∧ ("password_salt", JValue.b [4, 5, 6]) ∈ fullUserBody sampleUser
    ∧ ("pvt_id", JValue.n 7) ∈ fullUserBody sampleUser := by
  refine ⟨rfl, ?_, ?_, ?_⟩ <;> decide

/-- C2 counterexample: a registration that passes validation and the
pre-check but whose CreateUser call fails with the unique-constraint
violation 23505 is answered with the generic 507 storage failure, not with
the 406 username-taken response. -/
theorem register_conflict_not_username_taken_cex :
    (handleRegister (some sampleRegister) (Except.error DBErr.notFound)
        (Except.ok (fun _ => 0)) (Except.error uniqueViolation) 1000).responses
      = [Resp.failure 507 (FailureBody.msg insufficientStorageErrorMssg)]
    ∧ usernameTakenResp ∉ (handleRegister (some sampleRegister) (Except.error DBErr.notFound)
        (Except.ok (fun _ => 0)) (Except.error uniqueViolation) 1000).responses := by
  exact ⟨rfl, by decide⟩

/-- C2 amended: on any store-creation failure carrying a pg error (the
uniqueness conflict included) the register handler answers with the generic
storage-failure message and logs the conflict details; the username-taken
response comes only from the pre-check. -/
theorem register_conflict_returns_generic_failure (ru : RegisterUserData)
    (gen : Nat → Nat) (code m cn : String) (now : Nat)
    (hv : validateRegisterUserData ru = []) :
    (handleRegister (some ru) (Except.error DBErr.notFound) (Except.ok gen)
        (Except.error (DBErr.pgError code m cn)) now).responses
      = [Resp.failure 507 (FailureBody.msg insufficientStorageErrorMssg)]
    ∧ (handleRegister (some ru) (Except.error DBErr.notFound) (Except.ok gen)
        (Except.error (DBErr.pgError code m cn)) now).logs
      = [("ERROR", "could not create user")] := by
  unfold handleRegister
  simp [hv, pgErrorLog]

theorem register_conflict_returns_generic_failure_witness :
    validateRegisterUserData sampleRegister = []
    ∧ ((handleRegister (some sampleRegister) (Except.error DBErr.notFound)
          (Except.ok (fun _ => 0)) (Except.error (DBErr.pgError "23505"
          "duplicate key value violates unique constraint" "users_username_key")) 1000).responses
        = [Resp.failure 507 (FailureBody.msg insufficientStorageErrorMssg)]
      ∧ (handleRegister (some sampleRegister) (Except.error DBErr.notFound)
          (Except.ok (fun _ => 0)) (Except.error (DBErr.pgError "23505"
          "duplicate key value violates unique constraint" "users_username_key")) 1000).logs
        = [("ERROR", "could not create user")]) :=
  ⟨by decide, register_conflict_returns_generic_failure sampleRegister (fun _ => 0) "23505"
    "duplicate key value violates unique constraint" "users_username_key" 1000 (by decide)⟩

/-- C3 counterexample: the update handler applies a supplied username field,
so the single store update it issues carries a username different from the
account username: usernames are not immutable. -/
theorem update_modifies_username_cex :
    (handleUpdateUser (some usernameOnlyUpdate) sampleUser (Except.ok sampleUser) 500).updates
      = [⟨"newname99", "Alice A.", [1, 2, 3], 500, 7⟩]
    ∧ sampleUser.username ≠ "newname99" := by
  exact ⟨by decide, by decide⟩

/-- C3 amended: only the update operation can change a username, and only
when the request supplies a username field; when it supplies none, every
store update the handler issues keeps the account username unchanged. -/
theorem update_without_username_field_preserves_username (decoded : Option UpdateUserData)
    (user : User) (updRes : Except DBErr User) (now : Nat)
    (h : (decoded.getD zeroUpdateUserData).username = none) :
    ∀ ps ∈ (handleUpdateUser decoded user updRes now).updates,
      ps.username = user.username := by
  intro ps hmem
  simp only [handleUpdateUser] at hmem
  split at hmem
  · simp at hmem
  · split at hmem
    · simp at hmem
    · cases updRes <;> simp only [List.mem_singleton] at hmem <;> subst hmem <;>
        rw [updateParams_username] <;> exact applyUpdate_username_none _ user h

theorem update_without_username_field_preserves_username_witness :
    ((some displayOnlyUpdate).getD zeroUpdateUserData).username = none
    ∧ ∀ ps ∈ (handleUpdateUser (some displayOnlyUpdate) sampleUser
        (Except.ok sampleUser) 600).updates, ps.username = sampleUser.username :=
  ⟨rfl, update_without_username_field_preserves_username (some displayOnlyUpdate) sampleUser
    (Except.ok sampleUser) 600 rfl⟩

/-- C4: a login naming an unknown username and a login naming an existing
account with a non-verifying password produce identical handler output, the
single 400 response with message "username or password is invalid". -/
theorem login_no_account_existence_oracle (lu lu2 : LoginUserData) (user : User)
    (e : DBErr) (updErr updErr2 : Option DBErr) (tok tok2 : Except TokenErr String)
    (hv : validateLoginUserData lu = []) (hv2 : validateLoginUserData lu2 = [])
    (hmiss : constantTimeCompare (saltyPassword (strBytes lu.password) user.passwordSalt)
        user.password ≠ 1) :
    handleLogin (some lu) (Except.ok user) updErr tok
      = handleLogin (some lu2) (Except.error e) updErr2 tok2
    ∧ handleLogin (some lu) (Except.ok user) updErr tok
      = ⟨[Resp.failure 400 (FailureBody.msg "username or password is invalid")], [], [], []⟩ := by
  have h1 : handleLogin (some lu) (Except.ok user) updErr tok
      = ⟨[Resp.failure 400 (FailureBody.msg "username or password is invalid")], [], [], []⟩ := by
    unfold handleLogin
    simp [hv, hmiss]
  have h2 : handleLogin (some lu2) (Except.error e) updErr2 tok2
      = ⟨[Resp.failure 400 (FailureBody.msg "username or password is invalid")], [], [], []⟩ := by
    unfold handleLogin
    simp [hv2]
  exact ⟨h1.trans h2.symm, h1⟩

theorem login_no_account_existence_oracle_witness :
    validateLoginUserData loginInput = []
    ∧ constantTimeCompare (saltyPassword (strBytes loginInput.password)
        sampleUserNoHash.passwordSalt) sampleUserNoHash.password ≠ 1
    ∧ (handleLogin (some loginInput) (Except.ok sampleUserNoHash) none (Except.ok "tok")
        = handleLogin (some loginInput) (Except.error DBErr.notFound) none (Except.ok "tok")
      ∧ handleLogin (some loginInput) (Except.ok sampleUserNoHash) none (Except.ok "tok")
        = ⟨[Resp.failure 400 (FailureBody.msg "username or password is invalid")], [], [], []⟩) := by
  have hmiss : constantTimeCompare (saltyPassword (strBytes loginInput.password)
      sampleUserNoHash.passwordSalt) sampleUserNoHash.password ≠ 1 := by
    have hz : constantTimeCompare (saltyPassword (strBytes loginInput.password)
        sampleUserNoHash.passwordSalt) sampleUserNoHash.password = 0 := by
      apply constantTimeCompare_len_ne
      rw [saltyPassword_length]
      decide
    rw [hz]
    decide
  exact ⟨by decide, hmiss,
    login_no_account_existence_oracle loginInput loginInput sampleUserNoHash DBErr.notFound
      none none (Except.ok "tok") (Except.ok "tok") (by decide) (by decide) hmiss⟩

/-- C5: the claim says a failing last-login update is only logged internally
while the success response with the token is the only visible outcome.  The
code has no return and no log on that branch: it writes an externally visible
507 failure response first, then also the 200 success response, and its log
list is empty.  Evaluated on an account whose stored hash verifies. -/
theorem login_timestamp_failure_emits_visible_failure (salt : List Nat) (e : DBErr) (tok : String) :
    (handleLogin (some loginInput) (Except.ok (verifiedUser salt)) (some e)
        (Except.ok tok)).responses
      = [Resp.failure 507 (FailureBody.msg tokenGenerationErrorMssg),
         Resp.success 200 (loginResponseBody tok (verifiedUser salt))]
    ∧ (handleLogin (some loginInput) (Except.ok (verifiedUser salt)) (some e)
        (Except.ok tok)).logs = [] := by
  have hv : validateLoginUserData loginInput = [] := by decide
  have h1 : (verifiedUser salt).passwordSalt = salt := by
    simp only [verifiedUser]
  have h2 : (verifiedUser salt).password = saltyPassword (strBytes "Secret123!") salt := by
    simp only [verifiedUser]
  have h3 : loginInput.password = "Secret123!" := rfl
  have hok : constantTimeCompare (saltyPassword (strBytes loginInput.password)
      (verifiedUser salt).passwordSalt) (verifiedUser salt).password = 1 := by
    rw [h1, h2, h3]
    exact constantTimeCompare_self_eq_one _
  rw [handleLogin_updErr_some loginInput (verifiedUser salt) e tok hv hok]
  exact ⟨rfl, rfl⟩

/-- C6: deriveHash is deterministic (in this pure embedding the PBKDF2
pipeline is a function of the password and salt, so equal inputs give equal
hashes) and the login verifier, subtle.ConstantTimeCompare, accepts the hash
against itself for every password and salt. -/
theorem saltyPassword_deterministic_verify_self (p s : List Nat) :
    saltyPassword p s = saltyPassword p s
    ∧ constantTimeCompare (saltyPassword p s) (saltyPassword p s) = 1 :=
  ⟨rfl, constantTimeCompare_self_eq_one _⟩

/-- C7: an update supplying a password rehashes it with the existing stored
salt (the salt is not regenerated) and issues exactly one store update call
carrying that hash together with every supplied profile change. -/
theorem update_rehashes_with_existing_salt_single_call (ud : UpdateUserData) (p : String)
    (user : User) (updRes : Except DBErr User) (now : Nat)
    (hp : ud.password = some p) (hv : validateUpdateUserData ud = []) :
    (handleUpdateUser (some ud) user updRes now).updates
      = [⟨ud.username.getD user.username, ud.displayName.getD user.displayName,
          SaltyPassword (strBytes p) user.passwordSalt, now, user.pvtID⟩] := by
  have h0 : ud ≠ zeroUpdateUserData := by
    intro hz
    rw [hz] at hp
    cases hp
  have hparams : updateParams (applyUpdate ud user) now
      = ⟨ud.username.getD user.username, ud.displayName.getD user.displayName,
         SaltyPassword (strBytes p) user.passwordSalt, now, user.pvtID⟩ := by
    simp only [updateParams, applyUpdate, hp]
  simp only [handleUpdateUser, Option.getD_some]
  rw [if_neg h0, if_neg (by simp [hv])]
  cases updRes <;> simp only [hparams]

theorem update_rehashes_with_existing_salt_single_call_witness :
    passwordUpdate.password = some "NewSecret1!"
    ∧ validateUpdateUserData passwordUpdate = []
    ∧ (handleUpdateUser (some passwordUpdate) sampleUser (Except.ok sampleUser) 900).updates
        = [⟨passwordUpdate.username.getD sampleUser.username,
            passwordUpdate.displayName.getD sampleUser.displayName,
            SaltyPassword (strBytes "NewSecret1!") sampleUser.passwordSalt, 900,
            sampleUser.pvtID⟩] :=
  ⟨rfl, by decide, update_rehashes_with_existing_salt_single_call passwordUpdate "NewSecret1!"
    sampleUser (Except.ok sampleUser) 900 rfl (by decide)⟩

/-- C8: the verifier returns 0 (false) whenever the two byte sequences have
different lengths; it is a total function, so no exception or abort arises. -/
theorem verify_length_mismatch_returns_false (x y : List Nat)
    (h : x.length ≠ y.length) : constantTimeCompare x y = 0 :=
  constantTimeCompare_len_ne h

theorem verify_length_mismatch_returns_false_witness :
    ([1] : List Nat).length ≠ ([] : List Nat).length
    ∧ constantTimeCompare [1] [] = 0 :=
  ⟨by decide, verify_length_mismatch_returns_false [1] [] (by decide)⟩

/-- C9 counterexample: a request with an undecodable body reaching the update
handler is answered with the 200 no-op success carrying the current profile,
not with a field-validation failure. -/
theorem update_malformed_body_success_cex :
    (handleUpdateUser none sampleUser (Except.ok sampleUser) 100).responses
      = [Resp.success 200 (publicUserBody (convertToPublicUser sampleUser))]
    ∧ ¬ ∃ errs, Resp.validationFailure errs
        ∈ (handleUpdateUser none sampleUser (Except.ok sampleUser) 100).responses := by
  refine ⟨rfl, ?_⟩
  rintro ⟨errs, hmem⟩
  simp [handleUpdateUser] at hmem

/-- C9 amended: with an undecodable (or empty) body the decode error is
discarded and the zero-valued struct proceeds, so login, register and create
answer with the required-field validation failure, while update short-circuits
on the zero-valued struct and answers with the current profile as success. -/
theorem malformed_body_validation_outcomes (lookupL : Except DBErr User)
    (updErrL : Option DBErr) (tokL : Except TokenErr String)
    (lookupR : Except DBErr User) (randR : Except Unit (Nat → Nat))
    (createR : Except DBErr User) (nowR : Nat)
    (lookupC : Except DBErr User) (randC : Except Unit (Nat → Nat))
    (createC : Except DBErr User) (nowC : Nat)
    (user : User) (updRes : Except DBErr User) (nowU : Nat) :
    (handleLogin none lookupL updErrL tokL).responses
      = [Resp.validationFailure [("Username", "required"), ("Password", "required")]]
    ∧ (handleRegister none lookupR randR createR nowR).responses
      = [Resp.validationFailure [("Username", "required"), ("DisplayName", "required"),
          ("Password", "required"), ("ConfirmPassword", "required")]]
    ∧ (handleCreateUser none lookupC randC createC nowC).responses
      = [Resp.validationFailure [("Username", "required"), ("DisplayName", "required"),
          ("Password", "required")]]
    ∧ (handleUpdateUser none user updRes nowU).responses
      = [Resp.success 200 (publicUserBody (convertToPublicUser user))] :=
  ⟨rfl, rfl, rfl, rfl⟩

/-- C10 counterexample: on corresponding inputs where both creation handlers
succeed, the two success responses differ: the create handler body carries
the zero-valued updated_at and last_logged_in keys the register body lacks. -/
theorem register_create_success_responses_differ_cex :
    (handleRegister (some sampleRegister) (Except.error DBErr.notFound) (Except.ok (fun _ => 0))
        (Except.ok createdUser) 777).responses
      ≠ (handleCreateUser (some sampleCreate) (Except.error DBErr.notFound) (Except.ok (fun _ => 0))
        (Except.ok createdUser) 777).responses := by decide

/-- C10 amended: on corresponding inputs (register carrying a confirm equal to
the password) whose create projection validates, the two handlers run the
same pipeline against the same oracles: identical store creation parameters
(same salt bytes, identical PBKDF2 hashing), identical logs, and identical
responses except in the success case, where the create body extends the
register body with the two zero-valued timestamp keys. -/
theorem register_matches_create_pipeline (ru : RegisterUserData)
    (lookup : Except DBErr User) (randRes : Except Unit (Nat → Nat))
    (createRes : Except DBErr User) (now : Nat)
    (hc : ru.confirmPassword = ru.password)
    (hv : validateCreateUserData (dropConfirm ru) = []) :
    (handleRegister (some ru) lookup randRes createRes now).creates
      = (handleCreateUser (some (dropConfirm ru)) lookup randRes createRes now).creates
    ∧ (handleRegister (some ru) lookup randRes createRes now).logs
      = (handleCreateUser (some (dropConfirm ru)) lookup randRes createRes now).logs
    ∧ ((handleRegister (some ru) lookup randRes createRes now).responses
        = (handleCreateUser (some (dropConfirm ru)) lookup randRes createRes now).responses
      ∨ ∃ u : User, createRes = Except.ok u
        ∧ (handleRegister (some ru) lookup randRes createRes now).responses
            = [Resp.success 201 (registerResponseBody u)]
        ∧ (handleCreateUser (some (dropConfirm ru)) lookup randRes createRes now).responses
            = [Resp.success 201 (registerResponseBody u ++ zeroTimestampFields)]) := by
  have hvr : validateRegisterUserData ru = [] := by
    rcases ru with ⟨u, d, p, cp⟩
    exact validateRegister_nil_of u d p cp hc hv
  unfold handleRegister handleCreateUser
  simp only [Option.getD]
  rw [if_neg (by simp [hvr]), if_neg (by simp [hv])]
  cases lookup with
  | ok u => exact ⟨rfl, rfl, Or.inl rfl⟩
  | error e =>
    cases randRes with
    | error u => exact ⟨rfl, rfl, Or.inl rfl⟩
    | ok gen =>
      cases createRes with
      | error e2 =>
        refine ⟨?_, rfl, Or.inl rfl⟩
        simp [dropConfirm, SaltyPassword]
      | ok u =>
        refine ⟨?_, rfl, Or.inr ⟨u, rfl, rfl, ?_⟩⟩
        · simp [dropConfirm, SaltyPassword]
        · rfl

theorem register_matches_create_pipeline_witness :
    sampleRegister.confirmPassword = sampleRegister.password
    ∧ validateCreateUserData (dropConfirm sampleRegister) = []
    ∧ ((handleRegister (some sampleRegister) (Except.error DBErr.notFound)
          (Except.ok (fun _ => 0)) (Except.ok createdUser) 777).creates
        = (handleCreateUser (some (dropConfirm sampleRegister)) (Except.error DBErr.notFound)
          (Except.ok (fun _ => 0)) (Except.ok createdUser) 777).creates
      ∧ (handleRegister (some sampleRegister) (Except.error DBErr.notFound)
          (Except.ok (fun _ => 0)) (Except.ok createdUser) 777).logs
        = (handleCreateUser (some (dropConfirm sampleRegister)) (Except.error DBErr.notFound)
          (Except.ok (fun _ => 0)) (Except.ok createdUser) 777).logs
      ∧ ((handleRegister (some sampleRegister) (Except.error DBErr.notFound)
          (Except.ok (fun _ => 0)) (Except.ok createdUser) 777).responses
        = (handleCreateUser (some (dropConfirm sampleRegister)) (Except.error DBErr.notFound)
          (Except.ok (fun _ => 0)) (Except.ok createdUser) 777).responses
      ∨ ∃ u : User, (Except.ok createdUser : Except DBErr User) = Except.ok u
        ∧ (handleRegister (some sampleRegister) (Except.error DBErr.notFound)
            (Except.ok (fun _ => 0)) (Except.ok createdUser) 777).responses
            = [Resp.success 201 (registerResponseBody u)]
        ∧ (handleCreateUser (some (dropConfirm sampleRegister)) (Except.error DBErr.notFound)
            (Except.ok (fun _ => 0)) (Except.ok createdUser) 777).responses
            = [Resp.success 201 (registerResponseBody u ++ zeroTimestampFields)])) :=
  ⟨rfl, by decide, register_matches_create_pipeline sampleRegister (Except.error DBErr.notFound)
    (Except.ok (fun _ => 0)) (Except.ok createdUser) 777 rfl (by decide)⟩
